import Mathlib

/-!
# Verification of the flask_setup_project scaffolding scripts

A shallow embedding of the two scaffolding scripts `setup_project.py` and
`setup_db.py` (including the CLI scripts they emit as template strings,
`add_page.py` and `add_model.py`), over an explicit file-system state.

The file system is modelled as an association list from paths (component
lists) to file contents, together with a list of existing directories.
Insertion order of the association list records creation order, and
functions whose printed output a claim observes return an explicit log of
the lines they print.  Python string operations used by the scripts
(`strip`, `split`, `splitlines`, `lower`, `capitalize`, substring `in`)
are embedded as executable functions on `List Char`; they are faithful for
the ASCII text the scripts manipulate.  External effects (the
`flask db ...` subprocesses, dynamic module import) are modelled by oracle
parameters.  Unhandled Python exceptions are modelled with `Except`.
-/

/-- A file-system path, as its list of components (`Path.parts`). -/
abbrev FsPath := List String

/-- File-system state: files (path ↦ content, in creation order) and the
set of directories.  The scripts' only shared state. -/
structure FS where
  files : List (FsPath × String)
  dirs : List FsPath
deriving DecidableEq

/-- Content of the file at `p`, if one exists (`Path.read_text`). -/
def FS.readFile (fs : FS) (p : FsPath) : Option String :=
  fs.files.lookup p

/-- Whether a file exists at `p`. -/
def FS.hasFile (fs : FS) (p : FsPath) : Bool :=
  (fs.files.lookup p).isSome

/-- Whether a directory exists at `p` (`Path.is_dir`). -/
def FS.isDir (fs : FS) (p : FsPath) : Bool :=
  fs.dirs.contains p

/-- `Path.exists`: true for a file or a directory. -/
def FS.pathExists (fs : FS) (p : FsPath) : Bool :=
  fs.hasFile p || fs.isDir p

/-- `Path.write_text`: overwrite the file at `p` when present (keeping its
position), otherwise append a new file. -/
def FS.writeFile (fs : FS) (p : FsPath) (c : String) : FS :=
  if fs.hasFile p then
    { fs with files := fs.files.map (fun e => if e.1 = p then (p, c) else e) }
  else
    { fs with files := fs.files ++ [(p, c)] }

/-- `Path.mkdir(exist_ok=True)` for a single directory. -/
def FS.mkdir (fs : FS) (d : FsPath) : FS :=
  if fs.isDir d then fs else { fs with dirs := fs.dirs ++ [d] }

/-- Create each directory of `ds` in order (`mkdir(parents=True)` on the
last element of `ds`, given `ds` lists the ancestors outermost first). -/
def FS.mkdirList (fs : FS) (ds : List FsPath) : FS :=
  ds.foldl FS.mkdir fs

/-- The proper ancestors of the path `p`, outermost first: for
`a/b/c` this is `[a, a/b]` (the directories `mkdir(parents=True)` creates
for the parent of a file at `p`; also `Path(*target.parts[:i])` for
`i = 1 .. len(parts)-1` in `setup_project`). -/
def strictPrefixes (p : FsPath) : List FsPath :=
  (List.range (p.length - 1)).map (fun i => p.take (i + 1))

/-- Every non-empty prefix of `p`, outermost first, `p` itself included:
the directories `p.mkdir(parents=True, exist_ok=True)` creates when `p` is
itself a directory. -/
def allPrefixes (p : FsPath) : List FsPath :=
  (List.range p.length).map (fun i => p.take (i + 1))

/-- A path as the string Python prints for a `Path` (joined with `/`). -/
def renderPath (p : FsPath) : String :=
  String.intercalate "/" p

/-- `str` of a `Path`, with separators replaced by dots, as in
`str(path.parent).replace(os.sep, ".")`. -/
def dottedPath (p : FsPath) : String :=
  String.intercalate "." p

-- Sanity checks of the file-system primitives.
example : (FS.mk [([".env"], "x")] []).pathExists [".env"] = true := by decide
example : (FS.mk [] [["app"]]).isDir ["app"] = true := by decide
example : strictPrefixes ["app", "static", "css", "style.css"] =
    [["app"], ["app", "static"], ["app", "static", "css"]] := by decide

/-! ## Python string primitives

Executable models of the Python string operations the scripts use.  They
work on `List Char` and are faithful for ASCII text; `str.lower`,
`str.upper` and `str.capitalize` are modelled by `Char.toLower` /
`Char.toUpper`, which agree with Python on ASCII (the scripts only case-map
identifiers). -/

/-- The characters `str.strip()` removes (Python ASCII whitespace). -/
def isPySpace (c : Char) : Bool :=
  c = ' ' || c = '\t' || c = '\n' || c = '\r' || c = '\x0b' || c = '\x0c'

/-- `str.strip()` on a character list. -/
def pyStripList (l : List Char) : List Char :=
  ((l.dropWhile isPySpace).reverse.dropWhile isPySpace).reverse

/-- `str.strip()`. -/
def pyStripStr (s : String) : String :=
  String.mk (pyStripList s.data)

/-- `str.lstrip()`. -/
def pyLstripStr (s : String) : String :=
  String.mk (s.data.dropWhile isPySpace)

/-- `str.strip(ch)` for a single stripped character (used as
`path.strip('/')` in `add_page.py`). -/
def pyStripCharStr (ch : Char) (s : String) : String :=
  String.mk (((s.data.dropWhile (· = ch)).reverse.dropWhile (· = ch)).reverse)

/-- Split a character list at every occurrence of `sep`
(`str.split(sep)` for a one-character separator). -/
def splitOnChar (sep : Char) : List Char → List (List Char)
  | [] => [[]]
  | c :: cs =>
    if c = sep then [] :: splitOnChar sep cs
    else
      match splitOnChar sep cs with
      | [] => [[c]]
      | h :: t => (c :: h) :: t

/-- `str.split(sep)` for a one-character separator. -/
def pySplitCharStr (sep : Char) (s : String) : List String :=
  (splitOnChar sep s.data).map String.mk

/-- `str.splitlines()` (the scripts' files only use `\n` line ends):
split at `\n`, with no entry for a trailing newline. -/
def pySplitlinesStr (s : String) : List String :=
  let parts := splitOnChar '\n' s.data
  let parts := if parts.getLast? = some [] then parts.dropLast else parts
  parts.map String.mk

/-- The part of `l` before the first occurrence of `sep`
(`str.split(sep)[0]`); the whole list when `sep` does not occur. -/
def beforeSub (sep : List Char) : List Char → List Char
  | [] => []
  | c :: cs => if sep.isPrefixOf (c :: cs) then [] else c :: beforeSub sep cs

/-- `str.split(sep)[0]`. -/
def pySplitHeadStr (sep : String) (s : String) : String :=
  String.mk (beforeSub sep.data s.data)

/-- Python's substring test `sub in s` on character lists. -/
def containsSub (sub : List Char) : List Char → Bool
  | [] => sub.isEmpty
  | c :: cs => sub.isPrefixOf (c :: cs) || containsSub sub cs

/-- Python's substring test `sub in s`. -/
def containsSubStr (sub s : String) : Bool :=
  containsSub sub.data s.data

/-- `str.startswith(pre)`. -/
def pyStartsWith (pre s : String) : Bool :=
  pre.data.isPrefixOf s.data

/-- `str.lower()` (ASCII). -/
def pyLowerStr (s : String) : String :=
  String.mk (s.data.map Char.toLower)

/-- `str.capitalize()` (ASCII): first character upper-cased, the rest
lower-cased. -/
def pyCapitalizeStr (s : String) : String :=
  match s.data with
  | [] => ""
  | c :: cs => String.mk (c.toUpper :: cs.map Char.toLower)

/-- Lexicographic `≤` on character lists (Python string comparison for
ASCII text). -/
def lexLe : List Char → List Char → Bool
  | [], _ => true
  | _ :: _, [] => false
  | a :: as, b :: bs => if a < b then true else if b < a then false else lexLe as bs

/-- Insert into a `lexLe`-sorted list, keeping it sorted. -/
def insertSorted (x : String) : List String → List String
  | [] => [x]
  | y :: ys => if lexLe x.data y.data then x :: y :: ys else y :: insertSorted x ys

/-- `sorted` on a list of strings (insertion sort; the scripts only sort
short lists of distinct package names). -/
def sortStrings : List String → List String
  | [] => []
  | x :: xs => insertSorted x (sortStrings xs)

/-- `sep.join(parts)`. -/
def joinSep (sep : String) : List String → String
  | [] => ""
  | [x] => x
  | x :: xs => x ++ sep ++ joinSep sep xs

example : pySplitlinesStr "a\nb\n" = ["a", "b"] := by decide
example : pySplitlinesStr "a\nb" = ["a", "b"] := by decide
example : pySplitlinesStr "" = [] := by decide
example : pySplitlinesStr "a\n\n" = ["a", ""] := by decide
example : pySplitHeadStr "==" "sqlalchemy==2.0.40" = "sqlalchemy" := by decide
example : pySplitHeadStr "=" "SECRET_KEY=x" = "SECRET_KEY" := by decide
example : pyStripStr "  x\t" = "x" := by decide
example : containsSubStr "ab" "xxaby" = true := by decide
example : containsSubStr "ab" "xxa" = false := by decide
example : containsSubStr "" "xy" = true := by decide
example : pyStartsWith "#" "  #c" = false := by decide
example : pyStartsWith "#" (pyLstripStr "  #c") = true := by decide
example : pyLowerStr "PoSt" = "post" := by decide
example : pyCapitalizeStr "pOST" = "Post" := by decide
example : sortStrings ["flask_sqlalchemy==3.1.1", "flask_migrate==4.1.0", "sqlalchemy==2.0.40"] =
    ["flask_migrate==4.1.0", "flask_sqlalchemy==3.1.1", "sqlalchemy==2.0.40"] := by decide
example : pyStripCharStr '/' "/blog/posts/" = "blog/posts" := by decide
example : pySplitCharStr '/' "blog/posts" = ["blog", "posts"] := by decide

/-! ## ASCII case-mapping lemmas -/

theorem uint32_le_iff (a b : UInt32) : (a ≤ b) ↔ a.toNat ≤ b.toNat := by
  rw [UInt32.le_def, BitVec.le_def]; rfl

theorem char_ofNat_toNat (n : Nat) (h : n < 55296) : (Char.ofNat n).toNat = n := by
  simp only [Char.ofNat, dif_pos (Or.inl h : n.isValidChar)]
  simp [Char.ofNatAux, Char.toNat, UInt32.toNat]

theorem char_isUpper_iff (c : Char) : c.isUpper = true ↔ 65 ≤ c.toNat ∧ c.toNat ≤ 90 := by
  simp only [Char.isUpper, Bool.and_eq_true, decide_eq_true_eq, ge_iff_le]
  constructor
  · rintro ⟨h1, h2⟩
    exact ⟨(uint32_le_iff 65 c.val).1 h1, (uint32_le_iff c.val 90).1 h2⟩
  · rintro ⟨h1, h2⟩
    exact ⟨(uint32_le_iff 65 c.val).2 h1, (uint32_le_iff c.val 90).2 h2⟩

theorem char_toLower_idem (c : Char) : c.toLower.toLower = c.toLower := by
  unfold Char.toLower
  by_cases h : c.toNat ≥ 65 ∧ c.toNat ≤ 90
  · rw [if_pos h]
    have hv : (Char.ofNat (c.toNat + 32)).toNat = c.toNat + 32 :=
      char_ofNat_toNat _ (by omega)
    rw [if_neg (by omega)]
  · rw [if_neg h, if_neg h]

/-- An ASCII letter, of either case. -/
def isAsciiAlpha (c : Char) : Bool :=
  (65 ≤ c.toNat && c.toNat ≤ 90) || (97 ≤ c.toNat && c.toNat ≤ 122)

theorem char_isUpper_toUpper_of_alpha (c : Char) (h : isAsciiAlpha c = true) :
    c.toUpper.isUpper = true := by
  unfold isAsciiAlpha at h
  simp only [Bool.or_eq_true, Bool.and_eq_true, decide_eq_true_eq] at h
  unfold Char.toUpper
  rcases h with h | h
  · rw [if_neg (by omega), char_isUpper_iff]; exact h
  · rw [if_pos (by omega), char_isUpper_iff, char_ofNat_toNat _ (by omega)]
    omega

theorem pyLowerStr_idem (s : String) : pyLowerStr (pyLowerStr s) = pyLowerStr s := by
  unfold pyLowerStr
  rw [List.map_map]
  congr 1
  exact List.map_congr_left (fun c _ => char_toLower_idem c)

/-! ## `setup_project.py`

The template registry and the three functions `create_file`,
`create_init_py` and `setup_project`, translated from `setup_project.py`.
Printed `[Create]`/`[Skip]` lines are not modelled here (no claim observes
them for this script).  The `add_page.py` entry's content is the literal
source text of the generated CLI; its behaviour is embedded separately
below. -/

def TEMPLATES : List (FsPath × String) := [
  ([".gitignore"],
   "# Python\n__pycache__/\n*.pyc\n*.pyo\n*.pyd\n.venv/\nenv/\nvenv/\nENV/\n.Python\n\n# Flask\ninstance/\n*.sqlite3\n*.db\n*.log\n\n# IDE\n.vscode/\n.idea/\n*.sublime-project\n*.sublime-workspace\n\n# OS\n.DS_Store\nThumbs.db\n"),
  ([".env"],
   "FLASK_ENV=development\nSECRET_KEY=your-secret-key\nDATABASE_URL=sqlite:///instance/app.db\n"),
  (["run.py"],
   "from app import create_app\nfrom dotenv import load_dotenv\nimport os\n\nload_dotenv()\n\napp = create_app()\n\nif __name__ == \"__main__\":\n    app.run(debug=os.getenv(\"FLASK_ENV\") == \"development\")\n"),
  (["app", "__init__.py"],
   "import os\nimport importlib\nfrom flask import Flask\nfrom jinja2 import ChoiceLoader, FileSystemLoader\n\ndef create_app():\n    app = Flask(__name__)\n    app.jinja_loader = ChoiceLoader([\n        FileSystemLoader(\"app/pages\"),\n        FileSystemLoader(\"app/templates\"),\n    ])\n    app.config[\"SECRET_KEY\"] = os.getenv(\"SECRET_KEY\")\n    app.config[\"SQLALCHEMY_DATABASE_URI\"] = os.getenv(\"DATABASE_URL\")\n    app.config[\"SQLALCHEMY_TRACK_MODIFICATIONS\"] = False\n\n    try:\n        from app.common.db import db\n        db.init_app(app)\n    except ImportError:\n        pass\n\n    register_blueprints(app)\n    register_filters(app)\n    register_globals(app)\n\n    return app\n\ndef register_blueprints(app):\n    register_blueprint_group(app, \"pages\")\n\ndef register_blueprint_group(app, group):\n    base_dir = os.path.join(os.path.dirname(__file__), group)\n    if not os.path.exists(base_dir):\n        return\n    for root, dirs, files in os.walk(base_dir):\n        if \"view.py\" in files:\n            rel_path = os.path.relpath(root, base_dir)\n            module_path = f\"app.\x7bgroup\x7d.\" + rel_path.replace(os.path.sep, \".\") + \".view\"\n            module = importlib.import_module(module_path)\n            app.register_blueprint(module.bp)\n\ndef register_filters(app):\n    try:\n        from app.common import filters\n        for name, func in filters.FILTERS.items():\n            app.jinja_env.filters[name] = func\n    except ImportError:\n        pass\n\ndef register_globals(app):\n    try:\n        from app.common import globals\n        app.context_processor(globals.inject_globals)\n    except ImportError:\n        pass\n"),
  (["app", "common", "utils.py"],
   "# Utility functions\n\ndef format_datetime(dt):\n    return dt.strftime(\"%Y-%m-%d %H:%M:%S\")\n"),
  (["app", "common", "filters.py"],
   "# Jinja2 filters\n\ndef reverse_string(s):\n    return s[::-1]\n\ndef uppercase(s):\n    return s.upper()\n\nFILTERS = \x7b\n    \"reverse\": reverse_string,\n    \"uppercase\": uppercase,\n\x7d\n"),
  (["app", "common", "globals.py"],
   "# Jinja2 globals\n\nimport datetime\n\ndef inject_globals():\n    return \x7b\n        \"site_name\": \"My Flask Site\",\n        \"now_year\": lambda: datetime.datetime.now().year,\n    \x7d\n"),
  (["app", "templates", "layout.html"],
   "<!doctype html>\n<html lang=\"ja\">\n<head>\n    <meta charset=\"utf-8\">\n    <title>\x7b% block title %\x7dMy Flask Site\x7b% endblock %\x7d</title>\n    <link rel=\"stylesheet\" href=\"\x7b\x7b url_for(\x27static\x27, filename=\x27css/style.css\x27) \x7d\x7d\">\n</head>\n<body>\n    <header>\n        <h1>My Flask Site</h1>\n        <nav>\n            <a href=\"/\">Home</a>\n        </nav>\n    </header>\n    <main>\n        \x7b% block content %\x7d\x7b% endblock %\x7d\n    </main>\n    <footer>\n        <small>&copy; \x7b\x7b now_year() \x7d\x7d My Flask Site</small>\n    </footer>\n    <script src=\"\x7b\x7b url_for(\x27static\x27, filename=\x27js/script.js\x27) \x7d\x7d\"></script>\n</body>\n</html>\n"),
  (["app", "static", "css", "style.css"],
   "/* Default Styles */\nbody \x7b\n    font-family: sans-serif;\n\x7d\n"),
  (["app", "static", "js", "script.js"],
   "// Default Scripts\nconsole.log(\"Hello, Flask static files!\");\n"),
  (["app", "pages", "index", "view.py"],
   "from flask import Blueprint, render_template\n\nbp = Blueprint(\x27index\x27, __name__, url_prefix=\x27/\x27)\n\n@bp.route(\"/\")\ndef index():\n    return render_template(\"index/index.html\", title=\"Top Page\")\n"),
  (["app", "pages", "index", "index.html"],
   "\x7b% extends \"layout.html\" %\x7d\n\n\x7b% block title %\x7dTop Page\x7b% endblock %\x7d\n\n\x7b% block content %\x7d\n<h2>\u3088\u3046\u3053\u305d\uff01</h2>\n<p>\u73fe\u5728\u306e\u5e74: \x7b\x7b now_year() \x7d\x7d</p>\n\x7b% endblock %\x7d\n"),
  (["add_page.py"],
   "import os\nfrom pathlib import Path\n\ndef create_page(path):\n    parts = path.strip(\x27/\x27).split(\x27/\x27)\n    page_dir = Path(\x27app/pages\x27) / Path(*parts)\n\n    view_path = page_dir / \x27view.py\x27\n    template_path = page_dir / \x27index.html\x27\n\n    if view_path.exists() or template_path.exists():\n        print(f\"[Warning] \x7bpage_dir\x7d already exists with view.py or index.html!\")\n        return\n\n    page_dir.mkdir(parents=True, exist_ok=True)\n\n    route_url = \x27/\x27 + \x27/\x27.join(parts)\n    view_content = f\"\"\"from flask import Blueprint, render_template\n\nbp = Blueprint(\x27\x7b \x27_\x27.join(parts) \x7d\x27, __name__, url_prefix=\x27\x7broute_url\x7d\x27)\n\n@bp.route(\"/\")\ndef index():\n    return render_template(\"\x7b\x27/\x27.join(parts)\x7d/index.html\", title=\"\x7bparts[-1].capitalize()\x7d Page\")\n\"\"\"\n    view_path.write_text(view_content)\n    print(f\"[Create] \x7bview_path\x7d\")\n\n    html_content = \"\"\"\x7b% extends \"layout.html\" %\x7d\n\n\x7b% block title %\x7dNew Page\x7b% endblock %\x7d\n\n\x7b% block content %\x7d\n<h2>New Page Created</h2>\n\x7b% endblock %\x7d\n\"\"\"\n    template_path.write_text(html_content)\n    print(f\"[Create] \x7btemplate_path\x7d\")\n\n    create_init_pys_for_page(page_dir)\n\ndef create_init_pys_for_page(page_dir):\n    current = page_dir\n    while current != Path(\"app/pages\"):\n        init_path = current / \"__init__.py\"\n        if not init_path.exists():\n            module_path = str(init_path.parent).replace(os.sep, \".\").replace(\"app.\", \"app.\")\n            init_path.write_text(f\"# \x7bmodule_path\x7d package\\n\")\n            print(f\"[Create] \x7binit_path\x7d\")\n        current = current.parent\n\nif __name__ == \"__main__\":\n    import sys\n    if len(sys.argv) < 2:\n        print(\"Usage: python add_page.py <path/to/page>\")\n    else:\n        create_page(sys.argv[1])\n")]

example : TEMPLATES.length = 13 := by decide

/-- `create_file` (`setup_project.py`): create parent directories, then
write `content` only when nothing exists at `p`. -/
def create_file (fs : FS) (p : FsPath) (content : String) : FS :=
  let fs := fs.mkdirList (strictPrefixes p)
  if fs.pathExists p then fs else fs.writeFile p content

/-- `create_init_py`: write a package-marker `__init__.py` into `dir`
unless one already exists; its content names the dotted module path
(`str(path.parent).replace(os.sep, ".")`; the source's further
`.replace("app.", "app.")` rewrites nothing). -/
def create_init_py (fs : FS) (dir : FsPath) : FS :=
  let p := dir ++ ["__init__.py"]
  if fs.pathExists p then fs
  else fs.writeFile p ("# " ++ dottedPath dir ++ " package\n")

/-- The inner loop of `setup_project`: for each listed ancestor that is a
directory, ensure its package marker. -/
def markerLoop (fs : FS) (ds : List FsPath) : FS :=
  ds.foldl (fun f d => if f.isDir d then create_init_py f d else f) fs

/-- The per-template body of `setup_project`'s loop: `create_file`, then,
for a template under `app`, `create_init_py` into every ancestor directory
that exists. -/
def processTemplate (fs : FS) (e : FsPath × String) : FS :=
  let fs := create_file fs e.1 e.2
  if e.1.head? = some "app" then markerLoop fs (strictPrefixes e.1)
  else fs

/-- The `requirements.txt` content `setup_project` writes when the file is
absent. -/
def spReqContent : String :=
  "Flask==3.1.0\nclick==8.1.8\ndotenv==0.9.9\npython-dotenv==1.1.0\n"

/-- `setup_project`: materialize every template, ensure the four package
markers, and write `requirements.txt` when absent. -/
def setup_project (fs : FS) : FS :=
  let fs := TEMPLATES.foldl processTemplate fs
  let fs := create_init_py fs ["app"]
  let fs := create_init_py fs ["app", "pages"]
  let fs := create_init_py fs ["app", "pages", "index"]
  let fs := create_init_py fs ["app", "common"]
  if fs.pathExists ["requirements.txt"] then fs
  else fs.writeFile ["requirements.txt"] spReqContent

/-! ## File-system lemmas

Every operation `setup_project` performs only ever adds files and
directories; `FS.le` captures that growth. -/

theorem lookup_replace_isSome (l : List (FsPath × String)) (p q : FsPath) (c : String) :
    ((l.map (fun e => if e.1 = p then (p, c) else e)).lookup q).isSome =
      (l.lookup q).isSome := by
  induction l with
  | nil => rfl
  | cons e es ih =>
    obtain ⟨k, v⟩ := e
    simp only [List.map_cons]
    by_cases h : k = p
    · subst h
      rw [if_pos rfl]
      simp only [List.lookup_cons]
      cases hq : q == k <;> simp [ih]
    · rw [if_neg h]
      simp only [List.lookup_cons]
      cases hq : q == k <;> simp [ih]

theorem lookup_replace_self (l : List (FsPath × String)) (p : FsPath) (c : String)
    (h : (l.lookup p).isSome = true) :
    (l.map (fun e => if e.1 = p then (p, c) else e)).lookup p = some c := by
  induction l with
  | nil => simp [List.lookup] at h
  | cons e es ih =>
    obtain ⟨k, v⟩ := e
    simp only [List.map_cons]
    by_cases he : k = p
    · subst he
      rw [if_pos rfl]
      simp [List.lookup_cons]
    · rw [if_neg he]
      simp only [List.lookup_cons, beq_eq_false_iff_ne.mpr (Ne.symm he)] at h ⊢
      exact ih h

theorem lookup_replace_ne (l : List (FsPath × String)) (p q : FsPath) (c : String)
    (h : q ≠ p) :
    (l.map (fun e => if e.1 = p then (p, c) else e)).lookup q = l.lookup q := by
  induction l with
  | nil => rfl
  | cons e es ih =>
    obtain ⟨k, v⟩ := e
    simp only [List.map_cons]
    by_cases he : k = p
    · subst he
      rw [if_pos rfl]
      simp only [List.lookup_cons, beq_eq_false_iff_ne.mpr h]
      exact ih
    · rw [if_neg he]
      simp only [List.lookup_cons]
      cases hq : q == k <;> simp [ih]

theorem readFile_writeFile_self (fs : FS) (p : FsPath) (c : String) :
    (fs.writeFile p c).readFile p = some c := by
  unfold FS.writeFile FS.readFile FS.hasFile
  split
  · next h => exact lookup_replace_self fs.files p c h
  · next h =>
    rw [List.lookup_append]
    rcases ho : fs.files.lookup p with _ | v
    · simp [List.lookup_cons]
    · rw [ho] at h; simp at h

theorem hasFile_writeFile_self (fs : FS) (p : FsPath) (c : String) :
    (fs.writeFile p c).hasFile p = true := by
  have h := readFile_writeFile_self fs p c
  unfold FS.readFile at h
  unfold FS.hasFile
  rw [h]
  rfl

theorem readFile_writeFile_ne (fs : FS) (p q : FsPath) (c : String) (h : q ≠ p) :
    (fs.writeFile p c).readFile q = fs.readFile q := by
  unfold FS.writeFile FS.readFile
  split
  · exact lookup_replace_ne fs.files p q c h
  · rw [List.lookup_append]
    rcases ho : fs.files.lookup q with _ | v
    · simp [List.lookup_cons, beq_eq_false_iff_ne.mpr h]
    · simp

theorem hasFile_writeFile_mono (fs : FS) (p q : FsPath) (c : String)
    (h : fs.hasFile q = true) : (fs.writeFile p c).hasFile q = true := by
  by_cases hq : q = p
  · subst hq; exact hasFile_writeFile_self fs q c
  · unfold FS.hasFile
    rw [show (fs.writeFile p c).files.lookup q = fs.files.lookup q from by
      have := readFile_writeFile_ne fs p q c hq
      unfold FS.readFile at this; exact this]
    exact h

theorem isDir_writeFile (fs : FS) (p : FsPath) (c : String) (d : FsPath) :
    (fs.writeFile p c).isDir d = fs.isDir d := by
  unfold FS.writeFile FS.isDir
  split <;> rfl

theorem hasFile_mkdir (fs : FS) (d : FsPath) (q : FsPath) :
    (fs.mkdir d).hasFile q = fs.hasFile q := by
  unfold FS.mkdir FS.hasFile
  split <;> rfl

theorem isDir_mkdir_mono (fs : FS) (d e : FsPath) (h : fs.isDir e = true) :
    (fs.mkdir d).isDir e = true := by
  unfold FS.mkdir FS.isDir
  split
  · exact h
  · unfold FS.isDir at h
    simp only [List.contains, List.elem_iff] at *
    exact List.mem_append_left _ h

theorem isDir_mkdir_self (fs : FS) (d : FsPath) :
    (fs.mkdir d).isDir d = true := by
  unfold FS.mkdir
  split
  · next h => exact h
  · unfold FS.isDir
    simp [List.contains, List.elem_iff]

/-- Growth order on file systems: everything that exists keeps existing. -/
def FS.le (a b : FS) : Prop :=
  (∀ p, a.hasFile p = true → b.hasFile p = true) ∧
  (∀ d, a.isDir d = true → b.isDir d = true)

theorem FS.le_refl (fs : FS) : fs.le fs := ⟨fun _ h => h, fun _ h => h⟩

theorem FS.le_trans {a b c : FS} (h1 : a.le b) (h2 : b.le c) : a.le c :=
  ⟨fun p h => h2.1 p (h1.1 p h), fun d h => h2.2 d (h1.2 d h)⟩

theorem pathExists_mono {a b : FS} (h : a.le b) (p : FsPath)
    (hp : a.pathExists p = true) : b.pathExists p = true := by
  unfold FS.pathExists at *
  rcases Bool.or_eq_true_iff.mp hp with hf | hd
  · simp [h.1 p hf]
  · simp [h.2 p hd]

theorem writeFile_le (fs : FS) (p : FsPath) (c : String) : fs.le (fs.writeFile p c) :=
  ⟨fun q h => hasFile_writeFile_mono fs p q c h,
   fun d h => by rw [isDir_writeFile]; exact h⟩

theorem mkdir_le (fs : FS) (d : FsPath) : fs.le (fs.mkdir d) :=
  ⟨fun q h => by rw [hasFile_mkdir]; exact h,
   fun e h => isDir_mkdir_mono fs d e h⟩

/-- A fold of growth-only steps grows. -/
theorem foldl_le_of {α : Type} (g : FS → α → FS)
    (hg : ∀ (x : FS) (a : α), x.le (g x a)) :
    ∀ (l : List α) (x : FS), x.le (l.foldl g x) := by
  intro l
  induction l with
  | nil => exact fun x => FS.le_refl x
  | cons a as ih => exact fun x => FS.le_trans (hg x a) (ih (g x a))

theorem mkdirList_le (fs : FS) (ds : List FsPath) : fs.le (fs.mkdirList ds) :=
  foldl_le_of FS.mkdir mkdir_le ds fs

theorem create_file_le (fs : FS) (p : FsPath) (c : String) : fs.le (create_file fs p c) := by
  simp only [create_file]
  refine FS.le_trans (mkdirList_le fs (strictPrefixes p)) ?_
  split
  · exact FS.le_refl _
  · exact writeFile_le _ p c

theorem create_init_py_le (fs : FS) (d : FsPath) : fs.le (create_init_py fs d) := by
  simp only [create_init_py]
  split
  · exact FS.le_refl _
  · exact writeFile_le _ _ _

theorem markerLoop_le (fs : FS) (ds : List FsPath) : fs.le (markerLoop fs ds) := by
  unfold markerLoop
  refine foldl_le_of _ (fun x d => ?_) ds fs
  split
  · exact create_init_py_le x d
  · exact FS.le_refl x

theorem processTemplate_le (fs : FS) (e : FsPath × String) :
    fs.le (processTemplate fs e) := by
  simp only [processTemplate]
  refine FS.le_trans (create_file_le fs e.1 e.2) ?_
  split
  · exact markerLoop_le _ _
  · exact FS.le_refl _

/-! ## No-op and establishment lemmas for `setup_project`'s operations -/

theorem mkdir_noop (fs : FS) (d : FsPath) (h : fs.isDir d = true) : fs.mkdir d = fs := by
  unfold FS.mkdir
  rw [if_pos h]

theorem mkdirList_noop (fs : FS) (ds : List FsPath)
    (h : ∀ d ∈ ds, fs.isDir d = true) : fs.mkdirList ds = fs := by
  unfold FS.mkdirList
  induction ds with
  | nil => rfl
  | cons d ds ih =>
    rw [List.foldl_cons, mkdir_noop fs d (h d (List.mem_cons_self d ds))]
    exact ih (fun e he => h e (List.mem_cons_of_mem d he))

theorem create_init_py_noop (fs : FS) (d : FsPath)
    (h : fs.pathExists (d ++ ["__init__.py"]) = true) : create_init_py fs d = fs := by
  simp only [create_init_py, if_pos h]

theorem create_file_noop (fs : FS) (p : FsPath) (c : String)
    (h1 : ∀ d ∈ strictPrefixes p, fs.isDir d = true)
    (h2 : fs.pathExists p = true) : create_file fs p c = fs := by
  simp only [create_file, mkdirList_noop fs (strictPrefixes p) h1, if_pos h2]

theorem markerLoop_noop (fs : FS) (ds : List FsPath)
    (h : ∀ d ∈ ds, fs.pathExists (d ++ ["__init__.py"]) = true) :
    markerLoop fs ds = fs := by
  unfold markerLoop
  induction ds with
  | nil => rfl
  | cons d ds ih =>
    rw [List.foldl_cons]
    have hstep : (if fs.isDir d then create_init_py fs d else fs) = fs := by
      split
      · exact create_init_py_noop fs d (h d (List.mem_cons_self d ds))
      · rfl
    rw [hstep]
    exact ih (fun e he => h e (List.mem_cons_of_mem d he))

theorem mkdirList_isDir (ds : List FsPath) (d : FsPath) (h : d ∈ ds) :
    ∀ fs : FS, (fs.mkdirList ds).isDir d = true := by
  unfold FS.mkdirList
  induction ds with
  | nil => cases h
  | cons e es ih =>
    intro fs
    rw [List.foldl_cons]
    rcases List.mem_cons.mp h with rfl | h'
    · exact (foldl_le_of FS.mkdir mkdir_le es (fs.mkdir d)).2 d (isDir_mkdir_self fs d)
    · exact ih h' (fs.mkdir e)

theorem pathExists_create_file_self (fs : FS) (p : FsPath) (c : String) :
    (create_file fs p c).pathExists p = true := by
  simp only [create_file]
  split
  · next h => exact h
  · unfold FS.pathExists
    simp [hasFile_writeFile_self]

theorem create_init_py_marker (fs : FS) (d : FsPath) :
    (create_init_py fs d).pathExists (d ++ ["__init__.py"]) = true := by
  simp only [create_init_py]
  split
  · next h => exact h
  · unfold FS.pathExists
    simp [hasFile_writeFile_self]

theorem create_file_isDir_prefixes (fs : FS) (p : FsPath) (c : String)
    (d : FsPath) (hd : d ∈ strictPrefixes p) :
    (create_file fs p c).isDir d = true := by
  simp only [create_file]
  split
  · exact mkdirList_isDir (strictPrefixes p) d hd fs
  · rw [isDir_writeFile]
    exact mkdirList_isDir (strictPrefixes p) d hd fs

theorem markerLoop_markers (ds : List FsPath) :
    ∀ fs : FS, (∀ d ∈ ds, fs.isDir d = true) →
      ∀ d ∈ ds, (markerLoop fs ds).pathExists (d ++ ["__init__.py"]) = true := by
  induction ds with
  | nil => intro fs _ d hd; cases hd
  | cons e es ih =>
    intro fs h d hd
    have he : fs.isDir e = true := h e (List.mem_cons_self e es)
    have hstep : markerLoop fs (e :: es) = markerLoop (create_init_py fs e) es := by
      unfold markerLoop
      rw [List.foldl_cons, if_pos he]
    rw [hstep]
    rcases List.mem_cons.mp hd with rfl | hd'
    · exact pathExists_mono (markerLoop_le (create_init_py fs d) es) _
        (create_init_py_marker fs d)
    · exact ih (create_init_py fs e)
        (fun x hx => (create_init_py_le fs e).2 x (h x (List.mem_cons_of_mem e hx)))
        d hd'

/-! ## `setup_project` as a sequence of idempotent steps -/

/-- One step of `setup_project`'s fixed sequence: materialize a template
(with its ancestor markers), ensure one explicit package marker, or write
`requirements.txt`. -/
inductive SPStep where
  | tmpl (e : FsPath × String)
  | marker (d : FsPath)
  | reqs

/-- The final `requirements.txt` block of `setup_project`. -/
def writeReqs (fs : FS) : FS :=
  if fs.pathExists ["requirements.txt"] then fs
  else fs.writeFile ["requirements.txt"] spReqContent

def applySP (fs : FS) : SPStep → FS
  | SPStep.tmpl e => processTemplate fs e
  | SPStep.marker d => create_init_py fs d
  | SPStep.reqs => writeReqs fs

/-- `setup_project`'s operations, in execution order. -/
def spSteps : List SPStep :=
  TEMPLATES.map SPStep.tmpl ++
    [SPStep.marker ["app"], SPStep.marker ["app", "pages"],
     SPStep.marker ["app", "pages", "index"], SPStep.marker ["app", "common"],
     SPStep.reqs]

set_option maxRecDepth 4096 in
set_option maxHeartbeats 2000000 in
theorem setup_project_eq_foldl (fs : FS) :
    setup_project fs = spSteps.foldl applySP fs := by
  unfold setup_project spSteps
  rw [List.foldl_append, List.foldl_map]
  have hf : (fun (x : FS) (y : FsPath × String) => applySP x (SPStep.tmpl y)) =
      processTemplate := rfl
  rw [hf, List.foldl_cons, List.foldl_cons, List.foldl_cons, List.foldl_cons,
    List.foldl_cons, List.foldl_nil]
  simp only [applySP]
  rfl

/-- A step's effects are already present: running it changes nothing. -/
def spDone : SPStep → FS → Prop
  | SPStep.tmpl e, fs =>
      fs.pathExists e.1 = true ∧
      (∀ d ∈ strictPrefixes e.1, fs.isDir d = true) ∧
      (e.1.head? = some "app" →
        ∀ d ∈ strictPrefixes e.1, fs.pathExists (d ++ ["__init__.py"]) = true)
  | SPStep.marker d, fs => fs.pathExists (d ++ ["__init__.py"]) = true
  | SPStep.reqs, fs => fs.pathExists ["requirements.txt"] = true

theorem applySP_le (fs : FS) (s : SPStep) : fs.le (applySP fs s) := by
  cases s with
  | tmpl e => exact processTemplate_le fs e
  | marker d => exact create_init_py_le fs d
  | reqs =>
    simp only [applySP, writeReqs]
    split
    · exact FS.le_refl fs
    · exact writeFile_le fs _ _

theorem spDone_mono (s : SPStep) {a b : FS} (h : spDone s a) (hle : a.le b) :
    spDone s b := by
  cases s with
  | tmpl e =>
    exact ⟨pathExists_mono hle e.1 h.1,
      fun d hd => hle.2 d (h.2.1 d hd),
      fun hh d hd => pathExists_mono hle _ (h.2.2 hh d hd)⟩
  | marker d => exact pathExists_mono hle _ h
  | reqs => exact pathExists_mono hle _ h

theorem applySP_establish (fs : FS) (s : SPStep) : spDone s (applySP fs s) := by
  cases s with
  | tmpl e =>
    simp only [applySP, processTemplate]
    by_cases hh : e.1.head? = some "app"
    · rw [if_pos hh]
      refine ⟨?_, ?_, ?_⟩
      · exact pathExists_mono (markerLoop_le _ _) e.1
          (pathExists_create_file_self fs e.1 e.2)
      · exact fun d hd => (markerLoop_le _ _).2 d
          (create_file_isDir_prefixes fs e.1 e.2 d hd)
      · intro _ d hd
        exact markerLoop_markers (strictPrefixes e.1) (create_file fs e.1 e.2)
          (fun x hx => create_file_isDir_prefixes fs e.1 e.2 x hx) d hd
    · rw [if_neg hh]
      exact ⟨pathExists_create_file_self fs e.1 e.2,
        fun d hd => create_file_isDir_prefixes fs e.1 e.2 d hd,
        fun hc => absurd hc hh⟩
  | marker d => exact create_init_py_marker fs d
  | reqs =>
    simp only [applySP, writeReqs, spDone]
    split
    · next h => exact h
    · unfold FS.pathExists
      simp [hasFile_writeFile_self]

theorem applySP_noop (fs : FS) (s : SPStep) (h : spDone s fs) : applySP fs s = fs := by
  cases s with
  | tmpl e =>
    simp only [applySP, processTemplate, create_file_noop fs e.1 e.2 h.2.1 h.1]
    by_cases hh : e.1.head? = some "app"
    · rw [if_pos hh]
      exact markerLoop_noop fs (strictPrefixes e.1) (h.2.2 hh)
    · rw [if_neg hh]
  | marker d => exact create_init_py_noop fs d h
  | reqs =>
    have h' : fs.pathExists ["requirements.txt"] = true := h
    simp only [applySP, writeReqs, if_pos h']

theorem foldl_applySP_all_done :
    ∀ (l : List SPStep) (fs : FS) (s : SPStep), s ∈ l → spDone s (l.foldl applySP fs) := by
  intro l
  induction l with
  | nil => intro fs s hs; cases hs
  | cons t ts ih =>
    intro fs s hs
    rw [List.foldl_cons]
    rcases List.mem_cons.mp hs with rfl | hs'
    · exact spDone_mono s (applySP_establish fs s)
        (foldl_le_of applySP applySP_le ts (applySP fs s))
    · exact ih (applySP fs t) s hs'

theorem foldl_applySP_noop :
    ∀ (l : List SPStep) (fs : FS), (∀ s ∈ l, spDone s fs) → l.foldl applySP fs = fs := by
  intro l
  induction l with
  | nil => intro fs _; rfl
  | cons t ts ih =>
    intro fs h
    rw [List.foldl_cons, applySP_noop fs t (h t (List.mem_cons_self t ts))]
    exact ih fs (fun s hs => h s (List.mem_cons_of_mem t hs))

/-- C1: running `setup_project` a second time on any tree already produced
by a first run makes zero changes: every file that exists is skipped, its
content and every directory are left untouched, so the state after two
runs equals the state after one run. -/
theorem setup_project_idempotent (fs : FS) :
    setup_project (setup_project fs) = setup_project fs := by
  rw [setup_project_eq_foldl (setup_project fs)]
  refine foldl_applySP_noop spSteps (setup_project fs) ?_
  intro s hs
  rw [setup_project_eq_foldl fs]
  exact foldl_applySP_all_done spSteps fs s hs

/-- C1 at a concrete input: the two-run and one-run states agree starting
from an empty tree. -/
theorem setup_project_idempotent_on_empty :
    setup_project (setup_project (FS.mk [] [])) = setup_project (FS.mk [] []) :=
  setup_project_idempotent (FS.mk [] [])

/-! ## `add_page.py` (the page-generator CLI emitted by `setup_project`)

Translated from the `add_page.py` entry of `TEMPLATES`.  These functions
return the new state together with the list of lines they print, since the
claims observe the order in which markers are reported created. -/

/-- The fixed pages root `app/pages` of `create_init_pys_for_page`. -/
def pagesRoot : FsPath := ["app", "pages"]

/-- The `while current != Path("app/pages")` loop of
`create_init_pys_for_page`, walking from `page_dir` up through its
parents.  The `fuel` argument bounds the walk by the path's length; on any
directory below `app/pages` (the only inputs `create_page` produces) the
loop reaches the root before the fuel runs out, so the embedding agrees
with the source. -/
def create_init_pys_go : FS → FsPath → Nat → FS × List String
  | fs, _, 0 => (fs, [])
  | fs, current, Nat.succ fuel =>
    if current = pagesRoot then (fs, [])
    else
      let initP := current ++ ["__init__.py"]
      let step : FS × List String :=
        if fs.pathExists initP then (fs, [])
        else (fs.writeFile initP ("# " ++ dottedPath current ++ " package\n"),
              ["[Create] " ++ renderPath initP])
      let rest := create_init_pys_go step.1 current.dropLast fuel
      (rest.1, step.2 ++ rest.2)

/-- `create_init_pys_for_page` from `add_page.py`: ensure a package marker
in `page_dir` and each of its ancestors strictly below `app/pages`,
visiting `page_dir` first and walking upwards. -/
def create_init_pys_for_page (fs : FS) (page_dir : FsPath) : FS × List String :=
  create_init_pys_go fs page_dir page_dir.length

/-- The rendered `view.py` content of `create_page` (its f-string). -/
def pageViewContent (parts : List String) (route_url : String) : String :=
  "from flask import Blueprint, render_template\n\nbp = Blueprint(\x27" ++
    joinSep "_" parts ++ "\x27, __name__, url_prefix=\x27" ++ route_url ++
    "\x27)\n\n@bp.route(\"/\")\ndef index():\n    return render_template(\"" ++
    joinSep "/" parts ++ "/index.html\", title=\"" ++
    pyCapitalizeStr (parts.getLastD "") ++ " Page\")\n"

/-- The fixed `index.html` content `create_page` writes. -/
def pageHtmlContent : String :=
  "\x7b% extends \"layout.html\" %\x7d\n\n\x7b% block title %\x7dNew Page\x7b% endblock %\x7d\n\n\x7b% block content %\x7d\n<h2>New Page Created</h2>\n\x7b% endblock %\x7d\n"

/-- `create_page` from `add_page.py`. -/
def create_page (fs : FS) (path : String) : FS × List String :=
  let parts := pySplitCharStr '/' (pyStripCharStr '/' path)
  let page_dir := pagesRoot ++ parts
  let view_path := page_dir ++ ["view.py"]
  let template_path := page_dir ++ ["index.html"]
  if fs.pathExists view_path || fs.pathExists template_path then
    (fs, ["[Warning] " ++ renderPath page_dir ++ " already exists with view.py or index.html!"])
  else
    let fs := fs.mkdirList (allPrefixes page_dir)
    let route_url := "/" ++ joinSep "/" parts
    let fs := fs.writeFile view_path (pageViewContent parts route_url)
    let fs := fs.writeFile template_path pageHtmlContent
    let r := create_init_pys_for_page fs page_dir
    (r.1, ["[Create] " ++ renderPath view_path, "[Create] " ++ renderPath template_path] ++ r.2)

/-- A tree holding just the pages root, before any page is generated. -/
def fsPagesBase : FS := FS.mk [] [["app"], ["app", "pages"]]

/-- The same tree with a marker already present in `app/pages/blog`, with
recognizable content. -/
def fsPagesPre : FS :=
  FS.mk [(["app", "pages", "blog", "__init__.py"], "# custom\n")]
    [["app"], ["app", "pages"], ["app", "pages", "blog"]]

/-- C4, as stated, is false: on `blog/posts` the generator reports the
marker of the leaf directory `app/pages/blog/posts` created before the
marker of its parent `app/pages/blog` — the walk is leaf-to-root, not
root-to-leaf. -/
theorem create_page_marker_order_counterexample :
    "[Create] app/pages/blog/posts/__init__.py" ∈ (create_page fsPagesBase "blog/posts").2 ∧
    "[Create] app/pages/blog/__init__.py" ∈ (create_page fsPagesBase "blog/posts").2 ∧
    ¬ ((create_page fsPagesBase "blog/posts").2.indexOf "[Create] app/pages/blog/__init__.py" <
       (create_page fsPagesBase "blog/posts").2.indexOf
         "[Create] app/pages/blog/posts/__init__.py") := by decide

/-- C4 (amended): on `blog/posts` the page generator creates a package
marker in every ancestor directory under the pages root that lacks one,
visiting the ancestors leaf-to-root (deepest directory first), and never
overwrites or re-creates a marker that already exists. -/
theorem create_page_markers_leaf_to_root :
    (create_page fsPagesBase "blog/posts").2 =
      ["[Create] app/pages/blog/posts/view.py",
       "[Create] app/pages/blog/posts/index.html",
       "[Create] app/pages/blog/posts/__init__.py",
       "[Create] app/pages/blog/__init__.py"] ∧
    (create_page fsPagesBase "blog/posts").1.readFile
        ["app", "pages", "blog", "posts", "__init__.py"] =
      some "# app.pages.blog.posts package\n" ∧
    (create_page fsPagesBase "blog/posts").1.readFile
        ["app", "pages", "blog", "__init__.py"] =
      some "# app.pages.blog package\n" ∧
    (create_page fsPagesPre "blog/posts").1.readFile
        ["app", "pages", "blog", "__init__.py"] = some "# custom\n" ∧
    "[Create] app/pages/blog/__init__.py" ∉ (create_page fsPagesPre "blog/posts").2 := by
  decide

/-! ## `setup_db.py`: the environment-key and requirements mergers -/

/-- `ENV_PATH` (`ROOT / ".env"`). -/
def envPath : FsPath := [".env"]

/-- The `extra` dictionary of `ensure_env_keys`, in insertion order. -/
def extraEnvKeys : List (String × String) :=
  [("MYSQL_USER", "root"), ("MYSQL_PASSWORD", "password"),
   ("MYSQL_HOST", "localhost"), ("MYSQL_DBNAME", "test"),
   ("SUPABASE_USER", "your_user"), ("SUPABASE_PASSWORD", "your_password"),
   ("SUPABASE_HOST", "your-host.supabase.co"), ("SUPABASE_DBNAME", "your_database")]

/-- `ensure_env_keys` from `setup_db.py`: no-op with an error line when
`.env` is absent; otherwise parse the keys of lines that contain `=` and
do not start (after left-stripping) with `#`, and append the missing
`extra` entries at end of file.  Returns the new state and the printed
lines.  (`read_text` is applied to a path that exists; the model reads the
file's content, as the source does on the trees the scripts build.) -/
def ensure_env_keys (fs : FS) : FS × List String :=
  if fs.pathExists envPath = false then
    (fs, ["[Error] .env not found — abort."])
  else
    let content := (fs.readFile envPath).getD ""
    let existing := (pySplitlinesStr content).filterMap (fun line =>
      if line.data.contains '=' && !(pyStartsWith "#" (pyLstripStr line)) then
        some (pyStripStr (pySplitHeadStr "=" line))
      else none)
    let additions := (extraEnvKeys.filter (fun kv => !(existing.contains kv.1))).map
      (fun kv => kv.1 ++ "=" ++ kv.2 ++ "\n")
    if additions.isEmpty then (fs, ["[Skip] .env 追記なし。"])
    else
      (fs.writeFile envPath (content ++ String.join additions),
       ["[Update] .env に不足キーを追記しました。"])

/-- The `required` set of `update_requirements` (pinned entries, as
written in the source). -/
def requiredPkgs : List String :=
  ["flask_sqlalchemy==3.1.1", "flask_migrate==4.1.0", "sqlalchemy==2.0.40"]

/-- `update_requirements` from `setup_db.py`: create the manifest fresh
(sorted required entries) when absent; otherwise collect the bare package
name of each non-empty non-comment line and append the elements of
`required` outside that set (the source compares the full pinned strings
of `required` against the bare names of `existing`).  Returns the new state
and the printed lines. -/
def update_requirements (fs : FS) (requirements_path : FsPath) : FS × List String :=
  if fs.pathExists requirements_path = false then
    (fs.writeFile requirements_path (joinSep "\n" (sortStrings requiredPkgs) ++ "\n"),
     ["[Create] requirements.txt が存在しないため新規作成します。"])
  else
    let content := (fs.readFile requirements_path).getD ""
    let existing := (pySplitlinesStr content).filterMap (fun line =>
      if (pyStripStr line != "") && !(pyStartsWith "#" (pyStripStr line)) then
        some (pySplitHeadStr "==" (pyStripStr line))
      else none)
    let missing := requiredPkgs.filter (fun pkg => !(existing.contains pkg))
    if missing.isEmpty then (fs, ["[Skip] requirements.txt に追記は不要です。"])
    else
      (fs.writeFile requirements_path
        (content ++ String.join ((sortStrings missing).map (fun pkg => pkg ++ "\n"))),
       ["[Update] requirements.txt に " ++ toString missing.length ++ " 件追記しました。"])

/-- An environment file whose only line is `SECRET_KEY=x`. -/
def fsEnvOnlySecret : FS := FS.mk [([".env"], "SECRET_KEY=x\n")] []

set_option maxRecDepth 40000 in
/-- C3: on an environment file whose only line is `SECRET_KEY=x`,
`ensure_env_keys` appends exactly the eight auxiliary keys with their
default values, in the dictionary's order, and leaves `SECRET_KEY=x`
unchanged and first (the new content is the old content plus the eight
lines, and its first line is still `SECRET_KEY=x`). -/
theorem ensure_env_keys_appends_eight :
    ensure_env_keys fsEnvOnlySecret =
      (FS.mk [([".env"],
        "SECRET_KEY=x\n" ++
        "MYSQL_USER=root\nMYSQL_PASSWORD=password\nMYSQL_HOST=localhost\nMYSQL_DBNAME=test\nSUPABASE_USER=your_user\nSUPABASE_PASSWORD=your_password\nSUPABASE_HOST=your-host.supabase.co\nSUPABASE_DBNAME=your_database\n")] [],
       ["[Update] .env に不足キーを追記しました。"]) ∧
    (pySplitlinesStr (((ensure_env_keys fsEnvOnlySecret).1.readFile [".env"]).getD "")).head? =
      some "SECRET_KEY=x" := by decide

/-- An environment file with a commented-out key, a line without `=`, and
a key that carries a non-default value. -/
def fsEnvMixed : FS :=
  FS.mk [([".env"], "SECRET_KEY=x\n# MYSQL_USER=x\nMYSQL_DBNAME\nMYSQL_HOST=myhost\n")] []

set_option maxRecDepth 40000 in
/-- C9: only lines containing `=` whose first non-blank character is not
`#` contribute a key: the commented `# MYSQL_USER=x` and the `=`-less
`MYSQL_DBNAME` count as absent (their defaults are appended), while
`MYSQL_HOST=myhost` counts as present and is neither replaced nor
repeated; every existing line survives verbatim, in order, as the prefix
of the new content. -/
theorem ensure_env_keys_comment_and_eq_parsing :
    ensure_env_keys fsEnvMixed =
      (FS.mk [([".env"],
        "SECRET_KEY=x\n# MYSQL_USER=x\nMYSQL_DBNAME\nMYSQL_HOST=myhost\n" ++
        "MYSQL_USER=root\nMYSQL_PASSWORD=password\nMYSQL_DBNAME=test\nSUPABASE_USER=your_user\nSUPABASE_PASSWORD=your_password\nSUPABASE_HOST=your-host.supabase.co\nSUPABASE_DBNAME=your_database\n")] [],
       ["[Update] .env に不足キーを追記しました。"]) := by decide

/-- A manifest already holding the pinned line `sqlalchemy==2.0.40`. -/
def fsReqPinned : FS := FS.mk [(["requirements.txt"], "sqlalchemy==2.0.40\n")] []

set_option maxRecDepth 40000 in
/-- C2 evaluated at its failing input: on a manifest already containing
`sqlalchemy==2.0.40`, `update_requirements` appends all three pinned
entries again — the set difference compares the pinned strings of
`required` with the bare names of `existing`, so nothing is ever
filtered out — leaving two `sqlalchemy` lines in the file. -/
theorem update_requirements_duplicates_sqlalchemy :
    (update_requirements fsReqPinned ["requirements.txt"]).1.readFile ["requirements.txt"] =
      some "sqlalchemy==2.0.40\nflask_migrate==4.1.0\nflask_sqlalchemy==3.1.1\nsqlalchemy==2.0.40\n" ∧
    ((pySplitlinesStr
        "sqlalchemy==2.0.40\nflask_migrate==4.1.0\nflask_sqlalchemy==3.1.1\nsqlalchemy==2.0.40\n").filter
      (fun l => pySplitHeadStr "==" (pyStripStr l) == "sqlalchemy")).length = 2 ∧
    (update_requirements fsReqPinned ["requirements.txt"]).2 =
      ["[Update] requirements.txt に 3 件追記しました。"] := by decide

/-- C7: missing-target handling is asymmetric: with no `.env`,
`ensure_env_keys` reports an error and changes nothing; with no
`requirements.txt`, `update_requirements` creates it containing exactly
the (sorted) required entries, reports the creation, and touches no other
file. -/
theorem missing_target_asymmetry (fs : FS)
    (h1 : fs.pathExists [".env"] = false)
    (h2 : fs.pathExists ["requirements.txt"] = false) :
    ensure_env_keys fs = (fs, ["[Error] .env not found — abort."]) ∧
    (update_requirements fs ["requirements.txt"]).1.readFile ["requirements.txt"] =
      some "flask_migrate==4.1.0\nflask_sqlalchemy==3.1.1\nsqlalchemy==2.0.40\n" ∧
    (update_requirements fs ["requirements.txt"]).2 =
      ["[Create] requirements.txt が存在しないため新規作成します。"] ∧
    (∀ q, q ≠ ["requirements.txt"] →
      (update_requirements fs ["requirements.txt"]).1.readFile q = fs.readFile q) := by
  refine ⟨?_, ?_, ?_, ?_⟩
  · simp only [ensure_env_keys, envPath, if_pos h1]
  · simp only [update_requirements, if_pos h2]
    rw [readFile_writeFile_self]
    rfl
  · simp only [update_requirements, if_pos h2]
  · intro q hq
    simp only [update_requirements, if_pos h2]
    exact readFile_writeFile_ne fs _ q _ hq

/-- C7's hypotheses hold at the empty tree, where the conclusion follows
from `missing_target_asymmetry` itself. -/
theorem missing_target_asymmetry_witness :
    ensure_env_keys (FS.mk [] []) = ((FS.mk [] []), ["[Error] .env not found — abort."]) ∧
    (update_requirements (FS.mk [] []) ["requirements.txt"]).1.readFile ["requirements.txt"] =
      some "flask_migrate==4.1.0\nflask_sqlalchemy==3.1.1\nsqlalchemy==2.0.40\n" ∧
    (update_requirements (FS.mk [] []) ["requirements.txt"]).2 =
      ["[Create] requirements.txt が存在しないため新規作成します。"] ∧
    (∀ q, q ≠ ["requirements.txt"] →
      (update_requirements (FS.mk [] []) ["requirements.txt"]).1.readFile q =
        (FS.mk [] []).readFile q) :=
  missing_target_asymmetry (FS.mk [] []) (by decide) (by decide)

/-! ## `add_model.py` (the model-generator CLI emitted by `setup_db`)

`setup_db.py` generates `add_model.py` from the `ADD_MODEL` template
string; the functions below are translated from that generated source.
Interactive `input()` is modelled by a list of typed lines (an empty or
exhausted stream yields the prompt's default, as an empty entry does), the
two `flask db` subprocesses by `Option String` oracles (`none` = exit 0,
`some e` = a `CalledProcessError` rendered as `e`), and an unhandled
`FileNotFoundError` (reading a missing `models/__init__.py`) by
`Except.error`.  Prompt text is not logged; the `[..]`-tagged status lines
are. -/

def DB_PY : String :=
  "from flask_sqlalchemy import SQLAlchemy\nfrom flask_migrate import Migrate\n\ndb = SQLAlchemy()\nmigrate = Migrate()\n"

def MODELS_INIT : String :=
  "# app.models package\n"

def USER_MODEL : String :=
  "from app.common.db import db\n\nclass User(db.Model):\n    __tablename__ = \x27users\x27\n\n    id   = db.Column(db.Integer, primary_key=True)\n    name = db.Column(db.String(128))\n\n    def __repr__(self):\n        return f\x27<User \x7bself.id\x7d:\x7bself.name\x7d>\x27\n"

def DBTEST_VIEW : String :=
  "from flask import Blueprint, render_template\nfrom app.models.user import User\n\nbp = Blueprint(\x27dbtest\x27, __name__, url_prefix=\x27/dbtest\x27)\n\n@bp.route(\x27/\x27)\ndef index():\n    users = User.query.all()\n    return render_template(\x27dbtest/index.html\x27, users=users)\n"

def DBTEST_HTML : String :=
  "\x7b% extends \x27layout.html\x27 %\x7d\n\n\x7b% block title %\x7dDB Test\x7b% endblock %\x7d\n\n\x7b% block content %\x7d\n<h2>DB \u63a5\u7d9a\u30c6\u30b9\u30c8\u30da\u30fc\u30b8</h2>\n\x7b% if users %\x7d\n  <ul>\n  \x7b% for u in users %\x7d<li>\x7b\x7b u.id \x7d\x7d : \x7b\x7b u.name \x7d\x7d</li>\x7b% endfor %\x7d\n  </ul>\n\x7b% else %\x7d<p>\u30e6\u30fc\u30b6\u30fc\u304c\u5b58\u5728\u3057\u307e\u305b\u3093\u3002</p>\x7b% endif %\x7d\n\x7b% endblock %\x7d\n"

/-- `MODELS_DIR` of `add_model.py`. -/
def modelsDirPath : FsPath := ["app", "models"]

/-- `MODELS_INIT` (`MODELS_DIR / "__init__.py"`). -/
def modelsInitPath : FsPath := ["app", "models", "__init__.py"]

/-- `DBTEST_VIEW`'s path (`app/pages/dbtest/view.py`). -/
def dbtestViewPath : FsPath := ["app", "pages", "dbtest", "view.py"]

/-- `ask`: read one line, strip it, fall back to the default when the
stripped line is empty (or the input stream is exhausted). -/
def ask (inputs : List String) (default : String) : String × List String :=
  match inputs with
  | [] => (default, [])
  | v :: rest => (if pyStripStr v = "" then default else pyStripStr v, rest)

/-- The column-collection loop of `main`: prompt for a name until an
empty entry, prompting for a type (default `String(255)`) after each
name. -/
def collect_columns : List String → List (String × String) × List String
  | [] => ([], [])
  | v :: rest =>
    if pyStripStr v = "" then ([], rest)
    else
      match rest with
      | [] => ([(pyStripStr v, "String(255)")], [])
      | t :: rest2 =>
        let ty := if pyStripStr t = "" then "String(255)" else pyStripStr t
        let r := collect_columns rest2
        ((pyStripStr v, ty) :: r.1, r.2)

/-- The model-file content `main` renders from the table name, class name
and column list (the `lines` list joined). -/
def renderModel (table className : String) (cols : List (String × String)) : String :=
  "from app.common.db import db\n\n" ++
  "class " ++ className ++ "(db.Model):\n" ++
  "    __tablename__ = \x27" ++ table ++ "\x27\n\n" ++
  "    id = db.Column(db.Integer, primary_key=True)\n" ++
  String.join (cols.map (fun nt => "    " ++ nt.1 ++ " = db.Column(db." ++ nt.2 ++ ")\n")) ++
  "\n    def __repr__(self):\n" ++
  "        return f\x27<" ++ className ++ " " ++
  joinSep ":" (("id" :: cols.map (fun nt => nt.1)).map (fun f => "\x7bself." ++ f ++ "\x7d")) ++
  ">\x27\n"

/-- `append_imports`: add the model's import line to `models/__init__.py`
(read unconditionally — a missing file raises) and prepend it to
`dbtest/view.py` when that file exists, each only when the line is not
already contained as a substring. -/
def append_imports (fs : FS) (model_name className : String) :
    Except String (FS × List String) :=
  let import_line := "from app.models." ++ model_name ++ " import " ++ className ++ "\n"
  match fs.readFile modelsInitPath with
  | none => Except.error ("FileNotFoundError: " ++ renderPath modelsInitPath)
  | some initContent =>
    let r1 : FS × List String :=
      if containsSubStr import_line initContent then (fs, [])
      else (fs.writeFile modelsInitPath (initContent ++ import_line),
            ["[Update] models/__init__.py に " ++ className ++ " を追加"])
    if r1.1.pathExists dbtestViewPath then
      let content := (r1.1.readFile dbtestViewPath).getD ""
      if containsSubStr import_line content then Except.ok r1
      else Except.ok (r1.1.writeFile dbtestViewPath (import_line ++ content),
            r1.2 ++ ["[Update] dbtest/view.py に " ++ className ++ " をインポート"])
    else Except.ok r1

/-- `auto_migrate`: run `flask db migrate` then `flask db upgrade`,
catching a `CalledProcessError` from either (the second does not run when
the first fails); the lines it prints. -/
def auto_migrate (migrateErr upgradeErr : Option String) : List String :=
  "[Step] flask db migrate / upgrade を実行中…" ::
    (match migrateErr with
     | some e => ["[Error] マイグレーション失敗: " ++ e]
     | none =>
       match upgradeErr with
       | some e => ["[Error] マイグレーション失敗: " ++ e]
       | none => ["[OK] マイグレーション完了"])

/-- `main` of `add_model.py`: prompt for a (lower-cased) table name and
columns, refuse when the model file exists, otherwise write the rendered
model, append the import lines and run the migrations.  `Except.ok` is a
normal return; `Except.error` a propagated exception. -/
def add_model_main (inputs : List String) (migrateErr upgradeErr : Option String)
    (fs : FS) : Except String (FS × List String) :=
  let a := ask inputs ""
  let table := pyLowerStr a.1
  if table = "" then Except.ok (fs, ["テーブル名が空です。中止します。"])
  else
    let columns := (collect_columns a.2).1
    let className := pyCapitalizeStr table
    let fs := fs.mkdirList (allPrefixes modelsDirPath)
    let fpath := modelsDirPath ++ [table ++ ".py"]
    if fs.pathExists fpath then
      Except.ok (fs, ["[Error] " ++ renderPath fpath ++ " は既に存在します。"])
    else
      let fs := fs.writeFile fpath (renderModel table className columns)
      match append_imports fs table className with
      | Except.error e => Except.error e
      | Except.ok r =>
        Except.ok (r.1, ("[OK] " ++ renderPath fpath ++ " を作成しました。") :: r.2 ++
          auto_migrate migrateErr upgradeErr)

/-- The tree `add_model.py` runs in after `setup_db` has materialized
`models/__init__.py` and `dbtest/view.py`. -/
def fsDbBase : FS :=
  FS.mk [(modelsInitPath, MODELS_INIT), (dbtestViewPath, DBTEST_VIEW)]
    [["app"], ["app", "models"], ["app", "pages"], ["app", "pages", "dbtest"]]

/-- The model file rendered for table `post` with no columns. -/
def postModelContent : String :=
  "from app.common.db import db\n\nclass Post(db.Model):\n    __tablename__ = \x27post\x27\n\n    id = db.Column(db.Integer, primary_key=True)\n\n    def __repr__(self):\n        return f\x27<Post \x7bself.id\x7d>\x27\n"

set_option maxRecDepth 40000 in
example : renderModel "post" "Post" [] = postModelContent := by decide

/-- The import line `add_model.py` wires in for `post`. -/
def postImportLine : String := "from app.models.post import Post\n"

/-- The tree after generating model `post` on `fsDbBase`. -/
def fsDbAfterPost : FS :=
  FS.mk [(modelsInitPath, MODELS_INIT ++ postImportLine),
         (dbtestViewPath, postImportLine ++ DBTEST_VIEW),
         (["app", "models", "post.py"], postModelContent)]
    [["app"], ["app", "models"], ["app", "pages"], ["app", "pages", "dbtest"]]

instance : DecidableEq (Except String (FS × List String)) := fun a b =>
  match a, b with
  | Except.ok x, Except.ok y =>
    if h : x = y then Decidable.isTrue (h ▸ rfl)
    else Decidable.isFalse (fun hc => h (Except.ok.inj hc))
  | Except.error x, Except.error y =>
    if h : x = y then Decidable.isTrue (h ▸ rfl)
    else Decidable.isFalse (fun hc => h (Except.error.inj hc))
  | Except.ok _, Except.error _ => Decidable.isFalse (fun hc => Except.noConfusion hc)
  | Except.error _, Except.ok _ => Decidable.isFalse (fun hc => Except.noConfusion hc)

set_option maxRecDepth 200000 in
/-- C5: generating model `post` with no columns on the post-`setup_db`
tree writes `app/models/post.py` whose class has only the `id` integer
primary-key column and whose `__repr__` lists only `id` (the content is
exactly `postModelContent`); running the generator again with the same
name reports the file exists and returns the tree completely unchanged. -/
theorem add_model_post_create_then_refuse :
    add_model_main ["post", ""] none none fsDbBase =
      Except.ok (fsDbAfterPost,
        ["[OK] app/models/post.py を作成しました。",
         "[Update] models/__init__.py に Post を追加",
         "[Update] dbtest/view.py に Post をインポート",
         "[Step] flask db migrate / upgrade を実行中…",
         "[OK] マイグレーション完了"]) ∧
    fsDbAfterPost.readFile ["app", "models", "post.py"] = some postModelContent ∧
    add_model_main ["post", ""] none none fsDbAfterPost =
      Except.ok (fsDbAfterPost, ["[Error] app/models/post.py は既に存在します。"]) := by
  decide

set_option maxRecDepth 200000 in
/-- C6: when the `flask db migrate` subprocess fails with any error `e`,
the model file and both import-line insertions performed earlier in the
same invocation are still on disk, exactly as after a successful run (the
resulting tree is `fsDbAfterPost`, with no rollback), the failure is
reported as an `[Error]` line, and `main` returns normally
(`Except.ok`, the `CalledProcessError` being caught inside
`auto_migrate`) rather than propagating the exception. -/
theorem add_model_migrate_failure_no_rollback (e : String) :
    add_model_main ["post", ""] (some e) none fsDbBase =
      Except.ok (fsDbAfterPost,
        ["[OK] app/models/post.py を作成しました。",
         "[Update] models/__init__.py に Post を追加",
         "[Update] dbtest/view.py に Post をインポート",
         "[Step] flask db migrate / upgrade を実行中…",
         "[Error] マイグレーション失敗: " ++ e]) ∧
    fsDbAfterPost.readFile ["app", "models", "post.py"] = some postModelContent ∧
    fsDbAfterPost.readFile modelsInitPath = some (MODELS_INIT ++ postImportLine) ∧
    fsDbAfterPost.readFile dbtestViewPath = some (postImportLine ++ DBTEST_VIEW) := by
  refine ⟨rfl, by decide, by decide, by decide⟩

/-- The state a normally-returning generator run produces (the empty tree
for a propagated exception). -/
def resultFS (r : Except String (FS × List String)) : FS :=
  match r with
  | Except.ok p => p.1
  | Except.error _ => FS.mk [] []

set_option maxRecDepth 200000 in
/-- C10 counterexample: for the non-empty input `1tbl` the derived class
name is `1tbl` — `str.capitalize` leaves a leading digit unchanged — so
the generated class name does not start with an uppercase letter, and the
generator still writes `app/models/1tbl.py` with `class 1tbl(db.Model):`
in it. -/
theorem add_model_nonletter_class_counterexample :
    pyCapitalizeStr (pyLowerStr (pyStripStr "1tbl")) = "1tbl" ∧
    "1tbl".data.head? = some '1' ∧
    '1'.isUpper = false ∧
    (resultFS (add_model_main ["1tbl", ""] none none fsDbBase)).readFile
        ["app", "models", "1tbl.py"] =
      some "from app.common.db import db\n\nclass 1tbl(db.Model):\n    __tablename__ = \x271tbl\x27\n\n    id = db.Column(db.Integer, primary_key=True)\n\n    def __repr__(self):\n        return f\x27<1tbl \x7bself.id\x7d>\x27\n" := by
  decide

/-- A contained substring is no longer than its container. -/
theorem containsSub_length (sub : List Char) :
    ∀ l : List Char, containsSub sub l = true → sub.length ≤ l.length := by
  intro l
  induction l with
  | nil =>
    intro h
    unfold containsSub at h
    rw [List.isEmpty_iff] at h
    simp [h]
  | cons c cs ih =>
    intro h
    unfold containsSub at h
    rcases Bool.or_eq_true_iff.mp h with h1 | h2
    · exact (List.isPrefixOf_iff_prefix.mp h1).length_le
    · have := ih h2
      simp only [List.length_cons]
      omega

theorem data_ne_nil_of_ne_empty {s : String} (h : s ≠ "") : s.data ≠ [] := by
  intro hd
  apply h
  cases s
  simp_all

theorem one_le_length_of_ne_empty {s : String} (h : s ≠ "") : 1 ≤ s.length := by
  have := data_ne_nil_of_ne_empty h
  have : s.data.length ≠ 0 := fun h0 => this (List.length_eq_zero.mp h0)
  show 1 ≤ s.data.length
  omega

theorem pyCapitalizeStr_ne_empty {t : String} (h : t ≠ "") : pyCapitalizeStr t ≠ "" := by
  unfold pyCapitalizeStr
  rcases hd : t.data with _ | ⟨c, cs⟩
  · exact absurd hd (data_ne_nil_of_ne_empty h)
  · simp only [hd]
    intro hc
    exact absurd (congrArg String.data hc) (by simp)

/-- The generated import line is longer than the 21 characters of
`MODELS_INIT`, so it is never already contained in it. -/
theorem importLine_not_in_modelsInit (t C : String) (ht : t ≠ "") (hC : C ≠ "") :
    containsSubStr ("from app.models." ++ t ++ " import " ++ C ++ "\n") MODELS_INIT = false := by
  cases hb : containsSubStr ("from app.models." ++ t ++ " import " ++ C ++ "\n") MODELS_INIT
  · rfl
  · exfalso
    have hle : ("from app.models." ++ t ++ " import " ++ C ++ "\n").length ≤
        MODELS_INIT.length :=
      containsSub_length _ _ hb
    have h1 : ("from app.models." ++ t ++ " import " ++ C ++ "\n").length =
        16 + t.length + 8 + C.length + 1 := by
      rw [String.length_append, String.length_append, String.length_append,
        String.length_append]
      simp only [show ("from app.models." : String).length = 16 from rfl,
        show (" import " : String).length = 8 from rfl,
        show ("\n" : String).length = 1 from rfl]
    have h2 : MODELS_INIT.length = 21 := rfl
    have hta := one_le_length_of_ne_empty ht
    have hCa := one_le_length_of_ne_empty hC
    omega

/-- `str.capitalize` maps a leading ASCII letter to its uppercase form. -/
theorem pyCapitalizeStr_head (t : String) :
    ∀ c cs, t.data = c :: cs → isAsciiAlpha c = true →
      (pyCapitalizeStr t).data.head? = some c.toUpper ∧ c.toUpper.isUpper = true := by
  intro c cs hd ha
  refine ⟨?_, char_isUpper_toUpper_of_alpha c ha⟩
  simp only [pyCapitalizeStr, hd]
  rfl

set_option maxRecDepth 40000 in
/-- C10 (amended): the model generator lowercases the entered name before
any use and derives the class name by Python-capitalizing the lowercased
name, so for every input whose processed name is non-empty (and whose
target file is free) the generated file path is
`app/models/<lowercase-name>.py` with the class named
`capitalize(<lowercase-name>)`; the class name starts with a single
uppercase letter whenever the name starts with an ASCII letter (a name
starting with a digit keeps it, as the counterexample shows). -/
theorem add_model_lowercases_and_capitalizes (s : String)
    (h1 : pyLowerStr (pyStripStr s) ≠ "")
    (h2 : fsDbBase.pathExists ["app", "models", pyLowerStr (pyStripStr s) ++ ".py"] = false) :
    ∃ fsOut log,
      add_model_main [s] none none fsDbBase = Except.ok (fsOut, log) ∧
      fsOut.readFile ["app", "models", pyLowerStr (pyStripStr s) ++ ".py"] =
        some (renderModel (pyLowerStr (pyStripStr s))
          (pyCapitalizeStr (pyLowerStr (pyStripStr s))) []) ∧
      pyLowerStr (pyLowerStr (pyStripStr s)) = pyLowerStr (pyStripStr s) ∧
      (∀ c cs, (pyLowerStr (pyStripStr s)).data = c :: cs → isAsciiAlpha c = true →
        (pyCapitalizeStr (pyLowerStr (pyStripStr s))).data.head? = some c.toUpper ∧
        c.toUpper.isUpper = true) := by
  have hstrip : ¬ (pyStripStr s = "") := fun h0 => h1 (by rw [h0]; rfl)
  have hCne : pyCapitalizeStr (pyLowerStr (pyStripStr s)) ≠ "" := pyCapitalizeStr_ne_empty h1
  have hfpath_init : modelsInitPath ≠ ["app", "models", pyLowerStr (pyStripStr s) ++ ".py"] := by
    intro h
    rw [← h] at h2
    exact absurd h2 (by decide)
  have hfpath_view : dbtestViewPath ≠ ["app", "models", pyLowerStr (pyStripStr s) ++ ".py"] := by
    intro h
    injection h with a rest
    injection rest with b _
    exact absurd b (by decide)
  have hmk : fsDbBase.mkdirList (allPrefixes modelsDirPath) = fsDbBase := by decide
  simp only [add_model_main, ask, collect_columns]
  rw [if_neg hstrip, if_neg h1, hmk]
  simp only [modelsDirPath, List.cons_append, List.nil_append]
  rw [h2]
  simp only [Bool.false_eq_true, if_false]
  have hri : (fsDbBase.writeFile ["app", "models", pyLowerStr (pyStripStr s) ++ ".py"]
      (renderModel (pyLowerStr (pyStripStr s))
        (pyCapitalizeStr (pyLowerStr (pyStripStr s))) [])).readFile modelsInitPath =
      some MODELS_INIT := by
    rw [readFile_writeFile_ne _ _ _ _ hfpath_init]
    rfl
  simp only [append_imports, hri]
  rw [importLine_not_in_modelsInit _ _ h1 hCne]
  simp only [Bool.false_eq_true, if_false]
  have hrv : ((fsDbBase.writeFile ["app", "models", pyLowerStr (pyStripStr s) ++ ".py"]
      (renderModel (pyLowerStr (pyStripStr s))
        (pyCapitalizeStr (pyLowerStr (pyStripStr s))) [])).writeFile modelsInitPath
      (MODELS_INIT ++
        ("from app.models." ++ pyLowerStr (pyStripStr s) ++ " import " ++
          pyCapitalizeStr (pyLowerStr (pyStripStr s)) ++ "\n"))).readFile dbtestViewPath =
      some DBTEST_VIEW := by
    rw [readFile_writeFile_ne _ _ _ _ (by decide : dbtestViewPath ≠ modelsInitPath),
      readFile_writeFile_ne _ _ _ _ hfpath_view]
    rfl
  have hpv : ((fsDbBase.writeFile ["app", "models", pyLowerStr (pyStripStr s) ++ ".py"]
      (renderModel (pyLowerStr (pyStripStr s))
        (pyCapitalizeStr (pyLowerStr (pyStripStr s))) [])).writeFile modelsInitPath
      (MODELS_INIT ++
        ("from app.models." ++ pyLowerStr (pyStripStr s) ++ " import " ++
          pyCapitalizeStr (pyLowerStr (pyStripStr s)) ++ "\n"))).pathExists dbtestViewPath =
      true := by
    unfold FS.pathExists FS.hasFile
    rw [show (((fsDbBase.writeFile ["app", "models", pyLowerStr (pyStripStr s) ++ ".py"]
      (renderModel (pyLowerStr (pyStripStr s))
        (pyCapitalizeStr (pyLowerStr (pyStripStr s))) [])).writeFile modelsInitPath
      (MODELS_INIT ++
        ("from app.models." ++ pyLowerStr (pyStripStr s) ++ " import " ++
          pyCapitalizeStr (pyLowerStr (pyStripStr s)) ++ "\n"))).files.lookup dbtestViewPath)
      = some DBTEST_VIEW from hrv]
    rfl
  rw [hpv, if_pos rfl]
  simp only [hrv, Option.getD_some]
  cases hvc : containsSubStr ("from app.models." ++ pyLowerStr (pyStripStr s) ++ " import " ++
      pyCapitalizeStr (pyLowerStr (pyStripStr s)) ++ "\n") DBTEST_VIEW with
  | false =>
    simp only [Bool.false_eq_true, if_false]
    refine ⟨_, _, rfl, ?_, pyLowerStr_idem _, pyCapitalizeStr_head _⟩
    rw [readFile_writeFile_ne _ _ _ _ (Ne.symm hfpath_view),
      readFile_writeFile_ne _ _ _ _ (Ne.symm hfpath_init),
      readFile_writeFile_self]
  | true =>
    rw [if_pos rfl]
    refine ⟨_, _, rfl, ?_, pyLowerStr_idem _, pyCapitalizeStr_head _⟩
    rw [readFile_writeFile_ne _ _ _ _ (Ne.symm hfpath_init), readFile_writeFile_self]

set_option maxRecDepth 200000 in
/-- C10's hypotheses hold for the input `POST` (processed name `post`,
target file absent), so the amended claim follows from
`add_model_lowercases_and_capitalizes` there. -/
theorem add_model_lowercases_and_capitalizes_witness :
    ∃ fsOut log,
      add_model_main ["POST"] none none fsDbBase = Except.ok (fsOut, log) ∧
      fsOut.readFile ["app", "models", pyLowerStr (pyStripStr "POST") ++ ".py"] =
        some (renderModel (pyLowerStr (pyStripStr "POST"))
          (pyCapitalizeStr (pyLowerStr (pyStripStr "POST"))) []) ∧
      pyLowerStr (pyLowerStr (pyStripStr "POST")) = pyLowerStr (pyStripStr "POST") ∧
      (∀ c cs, (pyLowerStr (pyStripStr "POST")).data = c :: cs → isAsciiAlpha c = true →
        (pyCapitalizeStr (pyLowerStr (pyStripStr "POST"))).data.head? = some c.toUpper ∧
        c.toUpper.isUpper = true) :=
  add_model_lowercases_and_capitalizes "POST" (by decide) (by decide)

/-! ## Convention-based route-module discovery

`setup_project` and `setup_db` each emit an application factory with a
blueprint scanner: `register_blueprint_group` (in the `app/__init__.py`
template of `setup_project.py`) walks `app/<group>` with `os.walk` and
imports `module.bp` unconditionally, while `_register_blueprints` (in the
`APP_INIT` template of `setup_db.py`) walks `app/pages` with
`rglob('view.py')` and registers `mod.bp` only `if hasattr(mod, 'bp')`.
The scan is modelled over the file list; dynamic import is modelled by an
oracle `bpAttr` mapping a dotted module path to the module's `bp` object
(`none` when the module defines no `bp`; import errors themselves are out
of scope). -/

/-- The files named exactly `view.py` under `base`, in file order. -/
def viewFilesUnder (fs : FS) (base : FsPath) : List FsPath :=
  fs.files.filterMap (fun e =>
    if base.isPrefixOf e.1 && (e.1.getLast? == some "view.py") then some e.1 else none)

/-- The dotted module path `_register_blueprints` derives:
`'.'.join(view_py.relative_to(app_dir).with_suffix('').parts)` prefixed
with `app.`. -/
def moduleDbPath (p : FsPath) : String :=
  "app." ++ joinSep "." ((p.drop 1).dropLast ++ ["view"])

/-- The dotted module path `register_blueprint_group` derives:
`f"app.{group}." + relpath(root, base_dir).replace(sep, ".") + ".view"`. -/
def moduleSpPath (group : String) (p : FsPath) : String :=
  "app." ++ group ++ "." ++
    (if ((p.drop 2).dropLast).isEmpty then "." else joinSep "." ((p.drop 2).dropLast)) ++
    ".view"

/-- `_register_blueprints` from `setup_db`'s `APP_INIT` template: register
the `bp` of every discovered module that has one, skipping the others;
returns the registered objects in scan order. -/
def _register_blueprints (fs : FS) (bpAttr : String → Option String) : List String :=
  (viewFilesUnder fs ["app", "pages"]).foldl
    (fun acc p =>
      match bpAttr (moduleDbPath p) with
      | some bp => acc ++ [bp]
      | none => acc) []

/-- `register_blueprint_group` from `setup_project`'s `app/__init__.py`
template: nothing to do when the base directory does not exist; otherwise
access `module.bp` of every discovered module unconditionally — a module
without `bp` raises an `AttributeError`, modelled as `Except.error`. -/
def register_blueprint_group (fs : FS) (group : String)
    (bpAttr : String → Option String) : Except String (List String) :=
  if fs.pathExists ["app", group] = false then Except.ok []
  else
    (viewFilesUnder fs ["app", group]).foldlM
      (fun acc p =>
        match bpAttr (moduleSpPath group p) with
        | some bp => Except.ok (acc ++ [bp])
        | none =>
          Except.error ("AttributeError: module " ++ moduleSpPath group p ++
            " has no attribute bp"))
      []

/-- A pages tree with one `view.py` whose module exposes no `bp`. -/
def fsViewNoBp : FS :=
  FS.mk [(["app", "pages", "foo", "view.py"], "")]
    [["app"], ["app", "pages"], ["app", "pages", "foo"]]

/-- C8 counterexample: in the `setup_project` factory a module without
`bp` is not skipped — `register_blueprint_group` fails with an
`AttributeError` instead of attaching nothing. -/
theorem register_blueprint_group_fails_without_bp :
    register_blueprint_group fsViewNoBp "pages" (fun _ => none) =
      Except.error "AttributeError: module app.pages.foo.view has no attribute bp" := rfl

/-- A pages tree with two `view.py` modules (`foo` exposes `bp`, `bar`
does not) and a file not named `view.py`. -/
def fsViewMixed : FS :=
  FS.mk [(["app", "pages", "foo", "view.py"], ""),
         (["app", "pages", "bar", "view.py"], ""),
         (["app", "pages", "baz", "other.py"], "")]
    [["app"], ["app", "pages"], ["app", "pages", "foo"], ["app", "pages", "bar"],
     ["app", "pages", "baz"]]

/-- Only `app.pages.foo.view` exposes a `bp`. -/
def bpMapFoo : String → Option String :=
  fun m => if m = "app.pages.foo.view" then some "foo.bp" else none

/-- C8 (amended): discovery scans recursively for files named exactly
`view.py` (`other.py` is ignored) and derives each module's dotted path
from its location under the scan root; the `setup_db` factory
(`_register_blueprints`) attaches only the modules exposing `bp` and
skips the rest without failing, while the `setup_project` factory
(`register_blueprint_group`) accesses `bp` unconditionally and fails on
the first module lacking it. -/
theorem blueprint_discovery_behaviour :
    viewFilesUnder fsViewMixed ["app", "pages"] =
      [["app", "pages", "foo", "view.py"], ["app", "pages", "bar", "view.py"]] ∧
    moduleDbPath ["app", "pages", "foo", "view.py"] = "app.pages.foo.view" ∧
    moduleSpPath "pages" ["app", "pages", "foo", "view.py"] = "app.pages.foo.view" ∧
    _register_blueprints fsViewMixed bpMapFoo = ["foo.bp"] ∧
    register_blueprint_group fsViewMixed "pages" bpMapFoo =
      Except.error "AttributeError: module app.pages.bar.view has no attribute bp" :=
  ⟨rfl, rfl, rfl, rfl, rfl⟩
